import Mathlib

/-!
Verification of the cdumay_error_http crate: a shallow embedding of the
status registry declared by the define_kinds! macro in src/lib.rs, of the
error names declared by define_errors!, and of the converter functions
HTTPErrorConverter::from_u16 and HTTPErrorConverter::from_status, together
with theorems about the spec's claims.
-/

namespace CdumayErrorHttp

/-- Opaque structured value used in the context mapping (serde_value::Value):
the converter never inspects it, so a small concrete value type suffices. -/
inductive SValue where
  | str : String → SValue
  | int : Int → SValue
deriving DecidableEq, Repr

/-- Model of BTreeMap<String, serde_value::Value>: an association list with
string keys, passed through the converter unmodified. -/
abbrev Ctx := List (String × SValue)

/-- An error kind from cdumay_error: a stable code string (message_id), the
numeric HTTP status (code) and a default label (description), as produced by
the define_kinds! macro. -/
structure ErrorKind where
  message_id : String
  code : Nat
  description : String
deriving DecidableEq, Repr

/-- The cdumay_error::Error value: a kind, a message string and an optional
details mapping. -/
structure Err where
  kind : ErrorKind
  message : String
  details : Option Ctx
deriving DecidableEq, Repr

/-! The status registry: one ErrorKind per entry of the define_kinds! block
in src/lib.rs, with the exact stable code, status and label strings. -/

def MultipleChoices : ErrorKind := ⟨"HTTP-11298", 300, "Multiple Choices"⟩

def MovedPermanently : ErrorKind := ⟨"HTTP-23108", 301, "Moved Permanently"⟩

def Found : ErrorKind := ⟨"HTTP-07132", 302, "HttpRedirection302"⟩

def SeeOther : ErrorKind := ⟨"HTTP-16746", 303, "See Other"⟩

def NotModified : ErrorKind := ⟨"HTTP-21556", 304, "Not Modified"⟩

def UseProxy : ErrorKind := ⟨"HTTP-31839", 305, "Use Proxy"⟩

def TemporaryRedirect : ErrorKind := ⟨"HTTP-25446", 307, "Temporary Redirect"⟩

def PermanentRedirect : ErrorKind := ⟨"HTTP-12280", 308, "Permanent Redirect"⟩

def BadRequest : ErrorKind := ⟨"HTTP-26760", 400, "Bad Request"⟩

def Unauthorized : ErrorKind := ⟨"HTTP-08059", 401, "HttpClientError401"⟩

def PaymentRequired : ErrorKind := ⟨"HTTP-18076", 402, "Payment Required"⟩

def Forbidden : ErrorKind := ⟨"HTTP-23134", 403, "HttpClientError403"⟩

def NotFound : ErrorKind := ⟨"HTTP-18430", 404, "Not HttpRedirection302"⟩

def MethodNotAllowed : ErrorKind := ⟨"HTTP-23585", 405, "Method Not Allowed"⟩

def NotAcceptable : ErrorKind := ⟨"HTTP-04289", 406, "Not Acceptable"⟩

def ProxyAuthenticationRequired : ErrorKind := ⟨"HTTP-17336", 407, "Proxy Authentication Required"⟩

def RequestTimeout : ErrorKind := ⟨"HTTP-00565", 408, "Request Timeout"⟩

def Conflict : ErrorKind := ⟨"HTTP-08442", 409, "HttpClientError409"⟩

def Gone : ErrorKind := ⟨"HTTP-19916", 410, "HttpClientError410"⟩

def LengthRequired : ErrorKind := ⟨"HTTP-09400", 411, "Length Required"⟩

def PreconditionFailed : ErrorKind := ⟨"HTTP-22509", 412, "Precondition Failed"⟩

def PayloadTooLarge : ErrorKind := ⟨"HTTP-10591", 413, "Payload Too Large"⟩

def UriTooLong : ErrorKind := ⟨"HTTP-01377", 414, "URI Too Long"⟩

def UnsupportedMediaType : ErrorKind := ⟨"HTTP-12512", 415, "Unsupported Media Type"⟩

def RangeNotSatisfiable : ErrorKind := ⟨"HTTP-21696", 416, "Range Not Satisfiable"⟩

def ExpectationFailed : ErrorKind := ⟨"HTTP-16872", 417, "Expectation Failed"⟩

def ImATeapot : ErrorKind := ⟨"HTTP-23719", 418, "I\x27m a teapot"⟩

def MisdirectedRequest : ErrorKind := ⟨"HTTP-26981", 421, "Misdirected Request"⟩

def UnprocessableEntity : ErrorKind := ⟨"HTTP-12568", 422, "Unprocessable Entity"⟩

def Locked : ErrorKind := ⟨"HTTP-32695", 423, "HttpClientError423"⟩

def FailedDependency : ErrorKind := ⟨"HTTP-19693", 424, "Failed Dependency"⟩

def UpgradeRequired : ErrorKind := ⟨"HTTP-22991", 426, "Upgrade Required"⟩

def PreconditionRequired : ErrorKind := ⟨"HTTP-02452", 428, "Precondition Required"⟩

def TooManyRequests : ErrorKind := ⟨"HTTP-12176", 429, "Too Many Requests"⟩

def RequestHeaderFieldsTooLarge : ErrorKind := ⟨"HTTP-07756", 431, "Request Header Fields Too Large"⟩

def UnavailableForLegalReasons : ErrorKind := ⟨"HTTP-12136", 451, "Unavailable For Legal Reasons"⟩

def InternalServerError : ErrorKind := ⟨"HTTP-09069", 500, "Internal Server Error"⟩

def NotImplemented : ErrorKind := ⟨"HTTP-03394", 501, "Not Implemented"⟩

def BadGateway : ErrorKind := ⟨"HTTP-19734", 502, "Bad Gateway"⟩

def ServiceUnavailable : ErrorKind := ⟨"HTTP-18979", 503, "Service Unavailable"⟩

def GatewayTimeout : ErrorKind := ⟨"HTTP-17595", 504, "Gateway Timeout"⟩

def HttpVersionNotSupported : ErrorKind := ⟨"HTTP-01625", 505, "HTTP Version Not Supported"⟩

def VariantAlsoNegotiates : ErrorKind := ⟨"HTTP-28382", 506, "Variant Also Negotiates"⟩

def InsufficientStorage : ErrorKind := ⟨"HTTP-32132", 507, "Insufficient Storage"⟩

def LoopDetected : ErrorKind := ⟨"HTTP-30770", 508, "Loop Detected"⟩

def NotExtended : ErrorKind := ⟨"HTTP-19347", 510, "Not Extended"⟩

def NetworkAuthenticationRequired : ErrorKind := ⟨"HTTP-31948", 511, "Network Authentication Required"⟩

/-- The full status registry: every kind of the define_kinds! block, in
source order. -/
def registry : List ErrorKind :=
  [MultipleChoices, MovedPermanently, Found, SeeOther, NotModified, UseProxy,
   TemporaryRedirect, PermanentRedirect,
   BadRequest, Unauthorized, PaymentRequired, Forbidden, NotFound,
   MethodNotAllowed, NotAcceptable, ProxyAuthenticationRequired,
   RequestTimeout, Conflict, Gone, LengthRequired, PreconditionFailed,
   PayloadTooLarge, UriTooLong, UnsupportedMediaType, RangeNotSatisfiable,
   ExpectationFailed, ImATeapot, MisdirectedRequest, UnprocessableEntity,
   Locked, FailedDependency, UpgradeRequired, PreconditionRequired,
   TooManyRequests, RequestHeaderFieldsTooLarge, UnavailableForLegalReasons,
   InternalServerError, NotImplemented, BadGateway, ServiceUnavailable,
   GatewayTimeout, HttpVersionNotSupported, VariantAlsoNegotiates,
   InsufficientStorage, LoopDetected, NotExtended,
   NetworkAuthenticationRequired]

/-- The HTTP statuses the registry supports. -/
def supportedStatuses : List Nat := registry.map ErrorKind.code

/-! The define_errors! block binds an error name to each kind. Each name
constructs an error whose message is the kind's label; in the embedding the
names denote their kinds. Note HttpClientError425 is bound to
UpgradeRequired (the 426 kind) in the source. -/

def HttpRedirection300 : ErrorKind := MultipleChoices

def HttpRedirection301 : ErrorKind := MovedPermanently

def HttpRedirection302 : ErrorKind := Found

def HttpRedirection303 : ErrorKind := SeeOther

def HttpRedirection304 : ErrorKind := NotModified

def HttpRedirection305 : ErrorKind := UseProxy

def HttpRedirection307 : ErrorKind := TemporaryRedirect

def HttpRedirection308 : ErrorKind := PermanentRedirect

def HttpClientError400 : ErrorKind := BadRequest

def HttpClientError401 : ErrorKind := Unauthorized

def HttpClientError402 : ErrorKind := PaymentRequired

def HttpClientError403 : ErrorKind := Forbidden

def HttpClientError404 : ErrorKind := NotFound

def HttpClientError405 : ErrorKind := MethodNotAllowed

def HttpClientError406 : ErrorKind := NotAcceptable

def HttpClientError407 : ErrorKind := ProxyAuthenticationRequired

def HttpClientError408 : ErrorKind := RequestTimeout

def HttpClientError409 : ErrorKind := Conflict

def HttpClientError410 : ErrorKind := Gone

def HttpClientError411 : ErrorKind := LengthRequired

def HttpClientError412 : ErrorKind := PreconditionFailed

def HttpClientError413 : ErrorKind := PayloadTooLarge

def HttpClientError414 : ErrorKind := UriTooLong

def HttpClientError415 : ErrorKind := UnsupportedMediaType

def HttpClientError416 : ErrorKind := RangeNotSatisfiable

def HttpClientError417 : ErrorKind := ExpectationFailed

def HttpClientError418 : ErrorKind := ImATeapot

def HttpClientError421 : ErrorKind := MisdirectedRequest

def HttpClientError422 : ErrorKind := UnprocessableEntity

def HttpClientError423 : ErrorKind := Locked

def HttpClientError424 : ErrorKind := FailedDependency

def HttpClientError425 : ErrorKind := UpgradeRequired

def HttpClientError428 : ErrorKind := PreconditionRequired

def HttpClientError429 : ErrorKind := TooManyRequests

def HttpClientError431 : ErrorKind := RequestHeaderFieldsTooLarge

def HttpClientError451 : ErrorKind := UnavailableForLegalReasons

def HttpServerError500 : ErrorKind := InternalServerError

def HttpServerError501 : ErrorKind := NotImplemented

def HttpServerError502 : ErrorKind := BadGateway

def HttpServerError503 : ErrorKind := ServiceUnavailable

def HttpServerError504 : ErrorKind := GatewayTimeout

def HttpServerError505 : ErrorKind := HttpVersionNotSupported

def HttpServerError506 : ErrorKind := VariantAlsoNegotiates

def HttpServerError507 : ErrorKind := InsufficientStorage

def HttpServerError508 : ErrorKind := LoopDetected

def HttpServerError510 : ErrorKind := NotExtended

def HttpServerError511 : ErrorKind := NetworkAuthenticationRequired

/-- Building Error::from(X::new().set_details(context)) for the error name
bound to kind k: the error carries the kind, its default label as message,
and the caller's context as details. -/
def mkError (k : ErrorKind) (context : Ctx) : Err :=
  { kind := k, message := k.description, details := some context }

/-- The match expression of HTTPErrorConverter::from_u16 (src/lib.rs lines
194-242): each listed status builds the corresponding error with the given
context; everything else falls back to HttpServerError500. Note the arm for
426 uses HttpClientError425 and there is no arm for 425 or for 500. -/
def matchStatus (status : Nat) (context : Ctx) : Err :=
  match status with
  | 300 => mkError HttpRedirection300 context
  | 301 => mkError HttpRedirection301 context
  | 302 => mkError HttpRedirection302 context
  | 303 => mkError HttpRedirection303 context
  | 304 => mkError HttpRedirection304 context
  | 305 => mkError HttpRedirection305 context
  | 307 => mkError HttpRedirection307 context
  | 308 => mkError HttpRedirection308 context
  | 400 => mkError HttpClientError400 context
  | 401 => mkError HttpClientError401 context
  | 402 => mkError HttpClientError402 context
  | 403 => mkError HttpClientError403 context
  | 404 => mkError HttpClientError404 context
  | 405 => mkError HttpClientError405 context
  | 406 => mkError HttpClientError406 context
  | 407 => mkError HttpClientError407 context
  | 408 => mkError HttpClientError408 context
  | 409 => mkError HttpClientError409 context
  | 410 => mkError HttpClientError410 context
  | 411 => mkError HttpClientError411 context
  | 412 => mkError HttpClientError412 context
  | 413 => mkError HttpClientError413 context
  | 414 => mkError HttpClientError414 context
  | 415 => mkError HttpClientError415 context
  | 416 => mkError HttpClientError416 context
  | 417 => mkError HttpClientError417 context
  | 418 => mkError HttpClientError418 context
  | 421 => mkError HttpClientError421 context
  | 422 => mkError HttpClientError422 context
  | 423 => mkError HttpClientError423 context
  | 424 => mkError HttpClientError424 context
  | 426 => mkError HttpClientError425 context
  | 428 => mkError HttpClientError428 context
  | 429 => mkError HttpClientError429 context
  | 431 => mkError HttpClientError431 context
  | 451 => mkError HttpClientError451 context
  | 501 => mkError HttpServerError501 context
  | 502 => mkError HttpServerError502 context
  | 503 => mkError HttpServerError503 context
  | 504 => mkError HttpServerError504 context
  | 505 => mkError HttpServerError505 context
  | 506 => mkError HttpServerError506 context
  | 507 => mkError HttpServerError507 context
  | 508 => mkError HttpServerError508 context
  | 510 => mkError HttpServerError510 context
  | 511 => mkError HttpServerError511 context
  | _ => mkError HttpServerError500 context

/-- The trailing message override of from_u16: if text is Some(txt), the
error's message is overwritten with txt; otherwise the error is returned
unchanged. -/
def applyText (text : Option String) (error : Err) : Err :=
  match text with
  | some txt => { error with message := txt }
  | none => error

/-- HTTPErrorConverter::from_u16: resolve the status through the match
table, then apply the optional message override. -/
def from_u16 (status : Nat) (text : Option String) (context : Ctx) : Err :=
  applyText text (matchStatus status context)

/-- Model of http::StatusCode: a typed wrapper around a status integer in
the range the http crate admits (100-999), exposing as_u16. -/
structure StatusCode where
  val : Nat
  isValid : 100 ≤ val ∧ val ≤ 999

def StatusCode.as_u16 (s : StatusCode) : Nat := s.val

/-- HTTPErrorConverter::from_status: delegates to from_u16 on the integer
form of the typed status code. -/
def from_status (status : StatusCode) (text : Option String) (context : Ctx) : Err :=
  from_u16 (StatusCode.as_u16 status) text context

/-! Helper lemmas shared by the claim theorems. -/

theorem applyText_kind (t : Option String) (e : Err) : (applyText t e).kind = e.kind := by
  cases t <;> rfl

theorem applyText_details (t : Option String) (e : Err) :
    (applyText t e).details = e.details := by
  cases t <;> rfl

theorem matchStatus_details (s : Nat) (c : Ctx) : (matchStatus s c).details = some c := by
  unfold matchStatus
  split <;> rfl

theorem matchStatus_message (s : Nat) (c : Ctx) :
    (matchStatus s c).message = (matchStatus s c).kind.description := by
  unfold matchStatus
  split <;> rfl

theorem mkError_kind (k : ErrorKind) (c : Ctx) : (mkError k c).kind = k := rfl

theorem matchStatus_kind_mem (s : Nat) (c : Ctx) : (matchStatus s c).kind ∈ registry := by
  unfold matchStatus
  split <;> rw [mkError_kind] <;> decide

theorem matchStatus_unsupported (s : Nat) (c : Ctx) (h : s ∉ supportedStatuses) :
    matchStatus s c = mkError InternalServerError c := by
  unfold matchStatus
  split <;> first | rfl | exact absurd (by decide) h

/-! Claim theorems. -/

/-- C1: for every status code in the registry, converting that code with no
text override yields an error whose kind carries that code's registered
stable code string and whose numeric http status equals the code, for any
context. -/
theorem supported_status_roundtrip (k : ErrorKind) (hk : k ∈ registry) (c : Ctx) :
    (from_u16 k.code none c).kind.message_id = k.message_id ∧
    (from_u16 k.code none c).kind.code = k.code := by
  fin_cases hk <;> exact ⟨rfl, rfl⟩

/-- Witness for C1 at the NotFound kind (status 404) and an empty context. -/
theorem supported_status_roundtrip_witness :
    (from_u16 404 none []).kind.message_id = "HTTP-18430" ∧
    (from_u16 404 none []).kind.code = 404 :=
  supported_status_roundtrip NotFound (by decide) []

/-- C2: every status outside the supported table (999, 0, 600, anything not
registered) falls back to the single InternalServerError kind, with http
status 500, label Internal Server Error, and a stable code no other
registered kind carries; the converter returns a value rather than failing. -/
theorem unsupported_status_fallback (s : Nat) (c : Ctx) (h : s ∉ supportedStatuses) :
    (from_u16 s none c).kind = InternalServerError ∧
    (from_u16 s none c).kind.code = 500 ∧
    (from_u16 s none c).message = "Internal Server Error" ∧
    ∀ k ∈ registry, k.message_id = "HTTP-09069" → k = InternalServerError := by
  have hm : from_u16 s none c = mkError InternalServerError c :=
    matchStatus_unsupported s c h
  rw [hm]
  exact ⟨rfl, rfl, rfl, by decide⟩

/-- Witness for C2 at the unsupported status 999 with an empty context. -/
theorem unsupported_status_fallback_witness :
    999 ∉ supportedStatuses ∧
    ((from_u16 999 none []).kind = InternalServerError ∧
     (from_u16 999 none []).kind.code = 500 ∧
     (from_u16 999 none []).message = "Internal Server Error" ∧
     ∀ k ∈ registry, k.message_id = "HTTP-09069" → k = InternalServerError) :=
  ⟨by decide, unsupported_status_fallback 999 [] (by decide)⟩

/-- C5: for every status, context and override text, a Some text becomes the
error's message verbatim, and with no text the message is exactly the
resolved kind's default label. -/
theorem message_override_policy (s : Nat) (c : Ctx) :
    (∀ txt, (from_u16 s (some txt) c).message = txt) ∧
    (from_u16 s none c).message = (from_u16 s none c).kind.description :=
  ⟨fun _ => rfl, matchStatus_message s c⟩

/-- C6: the context attached to the returned error is exactly the
caller-supplied mapping, for every status and every optional text. -/
theorem context_preserved (s : Nat) (t : Option String) (c : Ctx) :
    (from_u16 s t c).details = some c :=
  (applyText_details t (matchStatus s c)).trans (matchStatus_details s c)

/-- C7: the conversion is total: for every status, text and context it
returns a fully formed error whose kind is one of the registered kinds and
whose details carry the context; no input is rejected. -/
theorem conversion_total (s : Nat) (t : Option String) (c : Ctx) :
    (from_u16 s t c).kind ∈ registry ∧ (from_u16 s t c).details = some c := by
  constructor
  · rw [from_u16, applyText_kind]
    exact matchStatus_kind_mem s c
  · exact (applyText_details t (matchStatus s c)).trans (matchStatus_details s c)

/-- C8: from_status on a typed status code returns exactly the error that
from_u16 returns on its integer form, for every text and context. -/
theorem from_status_delegates (s : StatusCode) (t : Option String) (c : Ctx) :
    from_status s t c = from_u16 (StatusCode.as_u16 s) t c := rfl

/-- C9: across the registry, stable code strings are pairwise distinct and
each supported http status is bound to exactly one kind. -/
theorem registry_identifiers_unique :
    (registry.map ErrorKind.message_id).Nodup ∧
    (registry.map ErrorKind.code).Nodup := by decide

/-- C10: converting a genuine 500 and converting any unsupported status
yield the identical kind: stable code HTTP-09069 and http status 500, so
the two cases cannot be told apart from the kind alone. -/
theorem fallback_indistinguishable_from_500 (u : Nat) (c : Ctx)
    (h : u ∉ supportedStatuses) :
    (from_u16 500 none c).kind = (from_u16 u none c).kind ∧
    (from_u16 500 none c).kind.message_id = "HTTP-09069" ∧
    (from_u16 500 none c).kind.code = 500 := by
  have hm : from_u16 u none c = mkError InternalServerError c :=
    matchStatus_unsupported u c h
  rw [hm]
  exact ⟨rfl, rfl, rfl⟩

/-- Witness for C10 at the unsupported status 999 with an empty context. -/
theorem fallback_indistinguishable_from_500_witness :
    999 ∉ supportedStatuses ∧
    ((from_u16 500 none []).kind = (from_u16 999 none []).kind ∧
     (from_u16 500 none []).kind.message_id = "HTTP-09069" ∧
     (from_u16 500 none []).kind.code = 500) :=
  ⟨by decide, fallback_indistinguishable_from_500 999 [] (by decide)⟩

/-- C3: the registry covers every claimed redirection, client-error and
server-error status except 425: all of 300-305, 307, 308, the standard 4xx
codes 400-418, 421-424, 426, 428, 429, 431 and 451, and the 5xx codes
500-508, 510 and 511 are present, 509 is absent as required, but 425 is
absent as well, so converting 425 falls back to the 500 kind instead of a
425 entry. -/
theorem registry_coverage_without_425 :
    (∀ n ∈ [300, 301, 302, 303, 304, 305, 307, 308], n ∈ supportedStatuses) ∧
    (∀ n ∈ [400, 401, 402, 403, 404, 405, 406, 407, 408, 409, 410, 411, 412,
            413, 414, 415, 416, 417, 418, 421, 422, 423, 424, 426, 428, 429,
            431, 451], n ∈ supportedStatuses) ∧
    (∀ n ∈ [500, 501, 502, 503, 504, 505, 506, 507, 508, 510, 511],
       n ∈ supportedStatuses) ∧
    509 ∉ supportedStatuses ∧
    425 ∉ supportedStatuses ∧
    (from_u16 425 none []).kind = InternalServerError ∧
    (from_u16 425 none []).kind.code = 500 := by decide

/-- C4: converting 425 does not produce a kind of its own bound to status
425: no registered kind carries status 425, and the converter sends 425 to
the InternalServerError fallback (status 500), while 426 resolves through
the HttpClientError425 name to the UpgradeRequired kind; the kinds for
inputs 425 and 426 do differ in stable code and status, but only because
425 degrades to the fallback. -/
theorem status_425_has_no_own_kind :
    (∀ k ∈ registry, k.code ≠ 425) ∧
    (from_u16 425 none []).kind = InternalServerError ∧
    (from_u16 425 none []).kind.code = 500 ∧
    (from_u16 426 none []).kind = UpgradeRequired ∧
    HttpClientError425 = UpgradeRequired ∧
    (from_u16 425 none []).kind.message_id ≠ (from_u16 426 none []).kind.message_id ∧
    (from_u16 425 none []).kind.code ≠ (from_u16 426 none []).kind.code := by decide

end CdumayErrorHttp
